import Mathlib

/-!
Verification development for the storex TypeScript type-declaration generator.

The definitions below are a shallow embedding of the generator source
(`src/ts/index.ts`, plus the snapshot variant in `src/unnamed/part_000` that
carries the `skipTypes` option).  JavaScript strings become `String`,
`undefined`-able strings become `Option String` (with `none` playing the role
of `undefined`), thrown exceptions become `Except String`, and the one piece
of mutable state (the `GenerationContext` set of referenced imports, plus the
read-only registry it lives next to) is threaded explicitly.  JS `Set`
iteration order is insertion order, so the context is a duplicate-free list
grown at the tail.
-/

namespace StorexTs

/-- Coerce a JS string-or-undefined value into the text a template literal
produces for it: `undefined` interpolates as the literal text "undefined". -/
def jsToString (o : Option String) : String :=
  match o with
  | none => "undefined"
  | some s => s

/-- JS falsiness of a string-or-undefined value: `undefined` and the empty
string are falsy, every other string is truthy. -/
def jsFalsyStr (o : Option String) : Bool :=
  match o with
  | none => true
  | some s => s == ""

/-- JS truthiness of a string-or-null value (used for `imports ? [imports] : []`). -/
def jsTruthyStr (o : Option String) : Bool :=
  match o with
  | none => false
  | some s => !(s == "")

/-- The list a JS spread `...(x ? [x] : [])` contributes for a string-or-null `x`. -/
def jsOptionalBlock (o : Option String) : List String :=
  match o with
  | none => []
  | some s => if s == "" then [] else [s]

/-- Modelled from the spec: the helper `upperFirst` is imported from
`./utils`, a file whose source is not in the repository snapshot; the spec
describes the declaration header as "the collection name with its first
character uppercased". -/
def upperFirst (s : String) : String :=
  match s.data with
  | [] => ""
  | c :: cs => String.mk (Char.toUpper c :: cs)

/-- One field definition: its storex kind string and the optional flag.
Embeds the parts of storex's `CollectionField` the generator reads. -/
structure CollectionField where
  type : String
  optional : Bool := false
deriving Repr, DecidableEq

/-- The payload of a (resolved) child-of relationship: the generator reads
`alias`, `targetCollection`, `reverseAlias`, `sourceCollection` and `single`.
The source field `alias` is spelled `aliasName` here because `alias` is a
reserved word in this development's proof library. -/
structure RelationshipData where
  aliasName : String
  targetCollection : String
  reverseAlias : String
  sourceCollection : String
  single : Bool := false
deriving Repr, DecidableEq

/-- Modelled from the spec: storex relationships (imported from
`@worldbrain/storex`, not part of this repository's sources) are, per the
spec's data model, "polymorphic over \x7bchild-of, connects\x7d", probed in the
source by the shape predicates `isChildOfRelationship` /
`isConnectsRelationship`; a third constructor stands for any other runtime
shape, which both predicates reject. -/
inductive Relationship where
  | childOf (d : RelationshipData)
  | connects (a b : String)
  | unsupported
deriving Repr, DecidableEq

/-- Modelled from the spec: storex's shape probe for child-of relationships. -/
def isChildOfRelationship : Relationship → Bool
  | .childOf _ => true
  | _ => false

/-- Modelled from the spec: storex's shape probe for connects relationships. -/
def isConnectsRelationship : Relationship → Bool
  | .connects _ _ => true
  | _ => false

/-- The `pkIndex` of a storex collection is a plain field name in the
supported case; any other shape (compound or relationship index) only feeds
the `typeof pkIndex !== 'string'` guards. -/
inductive PkIndex where
  | str (s : String)
  | other
deriving Repr, DecidableEq

/-- The parts of a storex `CollectionDefinition` the generator reads.  The
`fields` mapping keeps JS object insertion order as a list;
`reverseRelationshipsByAlias` is kept as its `Object.values` list. -/
structure CollectionDefinition where
  name : String
  pkIndex : PkIndex
  fields : List (String × CollectionField) := []
  relationships : List Relationship := []
  reverseRelationshipsByAlias : List Relationship := []
deriving Repr, DecidableEq

/-- The `autoPkType` option: one of the literal strings accepted by the
generator. -/
inductive AutoPkType where
  | string
  | int
  | generic
deriving Repr, DecidableEq

/-- The string such an option value is as a JS value (it is used directly as
a lookup key into the field type map). -/
def AutoPkType.key : AutoPkType → String
  | .string => "string"
  | .int => "int"
  | .generic => "generic"

/-- Options of `generateTypescriptInterfaces` in `src/ts/index.ts`: the
primary-key strategy, the optional caller type map, the requested collection
list and the optional import-path resolver (modelled as the collection name
to path function, the `.path` projection applied). -/
structure GenerationOptions where
  autoPkType : AutoPkType
  fieldTypeMap : Option (List (String × String)) := none
  collections : List String := []
  generateImport : Option (String → String) := none

/-- `DEFAULT_FIELD_TYPE_MAP` from `src/ts/index.ts`. -/
def DEFAULT_FIELD_TYPE_MAP : List (String × String) :=
  [("string", "string"), ("text", "string"), ("json", "any"), ("datetime", "Date"),
   ("timestamp", "number"), ("boolean", "boolean"), ("float", "number"), ("int", "number")]

/-- Adding to a JS `Set`: appends at the tail when absent, keeps insertion
order (and position) when already present. -/
def addToSet (s : List String) (x : String) : List String :=
  if s.contains x then s else s ++ [x]

/-- Folding `addToSet` over a list of additions. -/
def addAllToSet (s : List String) (xs : List String) : List String :=
  xs.foldl addToSet s

/-- The error message thrown by `getTypescriptFieldType`. -/
def unresolvedTypeMessage (t collectionName fieldName : String) : String :=
  "Could not translate type \x27" ++ t ++ "\x27 of field \x27" ++
    (collectionName ++ "." ++ fieldName) ++
    "\x27 to TypeScript type. Please use the \x27fieldTypeMap\x27 option for custom fields"

/-- `getTypescriptFieldType` from `src/ts/index.ts` (lines 191-208).  The
effective map is `options.fieldTypeMap || DEFAULT_FIELD_TYPE_MAP` (an
override replaces the default table wholesale).  The `auto-pk` branch
returns the raw lookup (possibly JS `undefined`, here `none`) with no check;
the general branch throws when the lookup is falsy. -/
def getTypescriptFieldType (fieldDefinition : CollectionField) (o : GenerationOptions)
    (collectionName fieldName : String) : Except String (Option String) :=
  let fieldTypeMap := o.fieldTypeMap.getD DEFAULT_FIELD_TYPE_MAP
  if fieldDefinition.type = "auto-pk" then
    .ok (fieldTypeMap.lookup o.autoPkType.key)
  else
    let typescriptFieldType := fieldTypeMap.lookup fieldDefinition.type
    if jsFalsyStr typescriptFieldType then
      .error (unresolvedTypeMessage fieldDefinition.type collectionName fieldName)
    else
      .ok typescriptFieldType

/-- The `typeof pkIndex === 'string' && fieldName === pkIndex` test. -/
def pkNameMatches : PkIndex → String → Bool
  | .str s, fieldName => fieldName = s
  | .other, _ => false

/-- `generateTypescriptField` from `src/ts/index.ts` (lines 149-163): omit
foreign keys and the primary-key field, else emit one `name?(opt) : type`
line, the resolved type interpolated with JS string coercion. -/
def generateTypescriptField (fieldDefinition : CollectionField) (cd : CollectionDefinition)
    (o : GenerationOptions) (fieldName : String) : Except String (Option String) :=
  if fieldDefinition.type = "foreign-key" then
    .ok none
  else if pkNameMatches cd.pkIndex fieldName then
    .ok none
  else
    match getTypescriptFieldType fieldDefinition o cd.name fieldName with
    | .error e => .error e
    | .ok t =>
        .ok (some (fieldName ++ (if fieldDefinition.optional then "?" else "") ++ " : " ++ jsToString t))

/-- `generateTypescriptOptionalPk` from `src/ts/index.ts` (lines 91-101). -/
def generateTypescriptOptionalPk (cd : CollectionDefinition) (o : GenerationOptions) :
    Except String String :=
  match cd.pkIndex with
  | .other =>
      -- the template interpolates the definition object, which prints as [object Object]
      .error "Unsupported pkIndex found in collection [object Object]"
  | .str pkIndex =>
      let pkType :=
        if o.autoPkType.key ≠ "generic" then
          jsToString (DEFAULT_FIELD_TYPE_MAP.lookup o.autoPkType.key)
        else "number | string"
      .ok ("( WithPk extends true ? \x7b " ++ pkIndex ++ " : " ++ pkType ++ " \x7d : \x7b\x7d )")

/-- `generateTypescriptRelationship` from `src/ts/index.ts` (lines 165-176). -/
def generateTypescriptRelationship (r : Relationship) (cd : CollectionDefinition)
    (o : GenerationOptions) : Except String (Option String) :=
  match r with
  | .childOf d =>
      let condition := "\x27" ++ d.aliasName ++ "\x27 extends Relationships"
      let targetCollectionIdentifier := upperFirst d.targetCollection
      let autoPkType := DEFAULT_FIELD_TYPE_MAP.lookup o.autoPkType.key
      .ok (some (d.aliasName ++ " : " ++ condition ++ " ? " ++ targetCollectionIdentifier ++
        " : " ++ jsToString autoPkType))
  | .connects _ _ => .ok none
  | .unsupported => .error ("Unsupported relationship type detected in collection " ++ cd.name)

/-- `generateTypescriptReverseRelationship` from `src/ts/index.ts` (lines 178-189). -/
def generateTypescriptReverseRelationship (r : Relationship) (cd : CollectionDefinition)
    (_o : GenerationOptions) : Except String (Option String) :=
  match r with
  | .childOf d =>
      let sourceCollectionIdentifier := upperFirst d.sourceCollection
      let suffix := if d.single then " | null" else "[]"
      .ok (some ("( \x27" ++ d.reverseAlias ++ "\x27 extends ReverseRelationships ? \x7b " ++
        d.reverseAlias ++ " : " ++ sourceCollectionIdentifier ++ suffix ++ " \x7d : \x7b\x7d )"))
  | .connects _ _ => .ok none
  | .unsupported =>
      .error ("Unsupported reverse relationship type detected in collection " ++ cd.name)

/-- The warning printed for a forward connects relationship. -/
def forwardConnectsWarning (collectionName : String) : String :=
  "Warning: \x27connects\x27 relationships are not supported yet, skipping one in collection " ++
    collectionName

/-- The warning printed for a reverse connects relationship. -/
def reverseConnectsWarning (collectionName a b : String) : String :=
  "Warning: \x27connects\x27 reverse relationships are not supported yet, skipping one in collection " ++
    collectionName ++ " (" ++ a ++ " <-> " ++ b ++ ")"

/-- The forward-relationship loop of `generateTypescriptInterfaceParameters`
(lines 111-121): accumulates the referenced-imports set, the quoted alias
list and the printed warnings; throws on an unsupported shape. -/
def fwdParamsLoop (collectionName : String) :
    List Relationship → List String → List String → List String →
    Except String (List String × List String × List String)
  | [], ctx, fields, warns => .ok (ctx, fields, warns)
  | .childOf d :: rest, ctx, fields, warns =>
      fwdParamsLoop collectionName rest (addToSet ctx d.targetCollection)
        (fields ++ ["\x27" ++ d.aliasName ++ "\x27"]) warns
  | .connects _ _ :: rest, ctx, fields, warns =>
      fwdParamsLoop collectionName rest ctx fields (warns ++ [forwardConnectsWarning collectionName])
  | .unsupported :: _, _, _, _ =>
      .error ("Unsupported relationship type detected in collection " ++ collectionName)

/-- The reverse-relationship loop of `generateTypescriptInterfaceParameters`
(lines 124-137).  Note the trailing space in the thrown message, present in
the source. -/
def revParamsLoop (collectionName : String) :
    List Relationship → List String → List String → List String →
    Except String (List String × List String × List String)
  | [], ctx, fields, warns => .ok (ctx, fields, warns)
  | .childOf d :: rest, ctx, fields, warns =>
      revParamsLoop collectionName rest (addToSet ctx d.sourceCollection)
        (fields ++ ["\x27" ++ d.reverseAlias ++ "\x27"]) warns
  | .connects a b :: rest, ctx, fields, warns =>
      revParamsLoop collectionName rest ctx fields
        (warns ++ [reverseConnectsWarning collectionName a b])
  | .unsupported :: _, _, _, _ =>
      .error ("Unsupported reverse relationship type detected in collection " ++ collectionName ++ " ")

/-- `generateTypescriptInterfaceParameters` from `src/ts/index.ts`
(lines 103-147): returns the generic-parameter clause, the updated
referenced-imports set, and the warnings printed while running. -/
def generateTypescriptInterfaceParameters (cd : CollectionDefinition) (ctx : List String) :
    Except String (String × List String × List String) :=
  if cd.relationships.isEmpty && cd.reverseRelationshipsByAlias.isEmpty then
    .ok ("<WithPk extends boolean = true>", ctx, [])
  else
    match fwdParamsLoop cd.name cd.relationships ctx [] [] with
    | .error e => .error e
    | .ok fwdRes =>
        let relationshipFields := fwdRes.2.1 ++ ["null"]
        match revParamsLoop cd.name cd.reverseRelationshipsByAlias fwdRes.1 [] fwdRes.2.2 with
        | .error e => .error e
        | .ok revRes =>
            let reverseRelationshipFields := revRes.2.1 ++ ["null"]
            .ok ("<" ++
              String.intercalate ", "
                (["WithPk extends boolean = true",
                  "Relationships extends " ++ String.intercalate " | " relationshipFields ++ " = null"] ++
                 (if reverseRelationshipFields.length > 1 then
                    ["ReverseRelationships extends " ++
                      String.intercalate " | " reverseRelationshipFields ++ " = null"]
                  else [])) ++ ">",
              revRes.1, revRes.2.2)

/-- The `{\x0a...\x0a}` indentation helper `indent` from `src/ts/index.ts`. -/
def indent (s : String) : String :=
  String.intercalate "\n" ((s.splitOn "\n").map (fun l => "    " ++ l))

/-- `inIndentedBlock` from `src/ts/index.ts` (lines 227-233). -/
def inIndentedBlock (bodyLines : List String) : Option String :=
  if bodyLines.isEmpty then none
  else some ("\x7b\n" ++ indent (String.intercalate "\n" bodyLines) ++ "\n\x7d")

/-- The `fieldPairs.map(generateTypescriptField).filter(line => !!line)` step
of `generateTypescriptInterface`: runs the field emitter over the field list
in order, dropping omitted (and JS-falsy) lines, propagating the first
thrown error. -/
def collectFieldLines (cd : CollectionDefinition) (o : GenerationOptions) :
    List (String × CollectionField) → Except String (List String)
  | [] => .ok []
  | (fieldName, fieldDefinition) :: rest =>
      match generateTypescriptField fieldDefinition cd o fieldName with
      | .error e => .error e
      | .ok none => collectFieldLines cd o rest
      | .ok (some line) =>
          match collectFieldLines cd o rest with
          | .error e => .error e
          | .ok lines => .ok (if line == "" then lines else line :: lines)

/-- The relationships `map` + truthiness `filter` of `generateTypescriptInterface`. -/
def collectRelationshipLines (cd : CollectionDefinition) (o : GenerationOptions) :
    List Relationship → Except String (List String)
  | [] => .ok []
  | r :: rest =>
      match generateTypescriptRelationship r cd o with
      | .error e => .error e
      | .ok none => collectRelationshipLines cd o rest
      | .ok (some line) =>
          match collectRelationshipLines cd o rest with
          | .error e => .error e
          | .ok lines => .ok (if line == "" then lines else line :: lines)

/-- The reverse-relationships `map` + truthiness `filter` of
`generateTypescriptInterface`. -/
def collectReverseRelationshipLines (cd : CollectionDefinition) (o : GenerationOptions) :
    List Relationship → Except String (List String)
  | [] => .ok []
  | r :: rest =>
      match generateTypescriptReverseRelationship r cd o with
      | .error e => .error e
      | .ok none => collectReverseRelationshipLines cd o rest
      | .ok (some line) =>
          match collectReverseRelationshipLines cd o rest with
          | .error e => .error e
          | .ok lines => .ok (if line == "" then lines else line :: lines)

/-- `generateTypescriptInterface` from `src/ts/index.ts` (lines 61-89):
returns the declaration text, the updated referenced-imports set and the
warnings printed.  Evaluation order follows the source: primary-key line,
field lines, relationship lines, reverse-relationship lines, then the
generic-parameter clause (the only step that touches the context). -/
def generateTypescriptInterface (cd : CollectionDefinition) (o : GenerationOptions)
    (ctx : List String) : Except String (String × List String × List String) :=
  match generateTypescriptOptionalPk cd o with
  | .error e => .error e
  | .ok pkLine =>
    match collectFieldLines cd o cd.fields with
    | .error e => .error e
    | .ok fieldLines =>
      match collectRelationshipLines cd o cd.relationships with
      | .error e => .error e
      | .ok relationshipLines =>
        match collectReverseRelationshipLines cd o cd.reverseRelationshipsByAlias with
        | .error e => .error e
        | .ok reverseRelationships =>
          match generateTypescriptInterfaceParameters cd ctx with
          | .error e => .error e
          | .ok ipRes =>
            let fields := inIndentedBlock fieldLines
            let relationships := inIndentedBlock relationshipLines
            let body := String.intercalate " &\n"
              ([pkLine] ++ jsOptionalBlock fields ++ jsOptionalBlock relationships ++
               reverseRelationships)
            let firstLine := "export type " ++ upperFirst cd.name ++ ipRes.1 ++ " ="
            .ok (firstLine ++ "\n" ++ indent body, ipRes.2.1, ipRes.2.2)

/-- The import line template of `generateTypescriptImports` (note the
trailing space after the closing quote, present in the source). -/
def importLine (generateImport : String → String) (collectionName : String) : String :=
  "import \x7b " ++ upperFirst collectionName ++ " \x7d from \x27" ++
    generateImport collectionName ++ "\x27 "

/-- The `map` + truthiness `filter` inside `generateTypescriptImports`
(lines 216-220): one line per tracked name absent from the requested list. -/
def generateTypescriptImportLines (collections : List String) (o : GenerationOptions)
    (generateImport : String → String) : List String :=
  (collections.map (fun collectionName =>
      if o.collections.contains collectionName then none
      else some (importLine generateImport collectionName))).filterMap id

/-- `generateTypescriptImports` from `src/ts/index.ts` (lines 210-221):
`none` models the early `return null`. -/
def generateTypescriptImports (collections : List String) (o : GenerationOptions) :
    Option String :=
  if collections.isEmpty then none
  else
    match o.generateImport with
    | none => none
    | some generateImport =>
        some (String.intercalate "\n" (generateTypescriptImportLines collections o generateImport))

/-- The mutable store of one batch run: the registry the definitions are
looked up in (supplied by the caller, read-only in the source) and the
`GenerationContext`'s insertion-ordered set of referenced imports. -/
structure GenState where
  collections : List (String × CollectionDefinition)
  referencedImports : List String
deriving Repr

/-- The `options.collections.map(...)` loop of `generateTypescriptInterfaces`:
looks each requested name up in the store and generates its declaration,
threading the store through.  A name absent from the registry makes the JS
code dereference `undefined`, which throws a `TypeError`; that is modelled
as an error at the lookup. -/
def generateTypescriptInterfacesLoop (o : GenerationOptions) :
    List String → GenState → Except String (List String × GenState)
  | [], st => .ok ([], st)
  | collectionName :: rest, st =>
      match st.collections.lookup collectionName with
      | none => .error ("TypeError: collection " ++ collectionName ++ " is undefined")
      | some cd =>
          match generateTypescriptInterface cd o st.referencedImports with
          | .error e => .error e
          | .ok ifaceRes =>
              match generateTypescriptInterfacesLoop o rest
                  { st with referencedImports := ifaceRes.2.1 } with
              | .error e => .error e
              | .ok recRes => .ok (ifaceRes.1 :: recRes.1, recRes.2)

/-- `generateTypescriptInterfaces` from `src/ts/index.ts` (lines 37-59), the
batch entry point.  The returned `GenState` exposes the final mutable store
(the source returns only the string; the state is returned so theorems can
speak about it). -/
def generateTypescriptInterfaces (registry : List (String × CollectionDefinition))
    (o : GenerationOptions) : Except String (String × GenState) :=
  match generateTypescriptInterfacesLoop o o.collections
      { collections := registry, referencedImports := [] } with
  | .error e => .error e
  | .ok loopRes =>
      let interfaces := String.intercalate "\n\n" loopRes.1 ++ "\n"
      let imports := generateTypescriptImports loopRes.2.referencedImports o
      .ok (String.intercalate "\n\n" (jsOptionalBlock imports ++ [interfaces]), loopRes.2)

namespace Part0

/-- Options of `generateTypescriptInterfaces` in the snapshot
`src/unnamed/part_000` (`GenerateTypescriptInterfacesOptions`): this variant
carries the `skipTypes` exclusion list. -/
structure GenerateTypescriptInterfacesOptions where
  autoPkType : AutoPkType
  fieldTypeMap : Option (List (String × String)) := none
  collections : List String := []
  generateImport : Option (String → String) := none
  skipTypes : Option (List String) := none

/-- `getTypescriptFieldType` from `src/unnamed/part_000` (lines 111-128),
textually identical logic to the `src/ts/index.ts` version. -/
def getTypescriptFieldType (fieldDefinition : CollectionField)
    (o : GenerateTypescriptInterfacesOptions) (collectionName fieldName : String) :
    Except String (Option String) :=
  let fieldTypeMap := o.fieldTypeMap.getD DEFAULT_FIELD_TYPE_MAP
  if fieldDefinition.type = "auto-pk" then
    .ok (fieldTypeMap.lookup o.autoPkType.key)
  else
    let typescriptFieldType := fieldTypeMap.lookup fieldDefinition.type
    if jsFalsyStr typescriptFieldType then
      .error (unresolvedTypeMessage fieldDefinition.type collectionName fieldName)
    else
      .ok typescriptFieldType

/-- The `options.skipTypes && options.skipTypes.includes(fieldDefinition.type)` test. -/
def skipMatches (o : GenerateTypescriptInterfacesOptions) (t : String) : Bool :=
  match o.skipTypes with
  | some l => l.contains t
  | none => false

/-- `generateTypescriptField` from `src/unnamed/part_000` (lines 92-109):
the field emitter variant with the `skipTypes` exclusion list, checked
between the foreign-key and primary-key omission rules. -/
def generateTypescriptField (fieldDefinition : CollectionField) (cd : CollectionDefinition)
    (o : GenerateTypescriptInterfacesOptions) (fieldName : String) :
    Except String (Option String) :=
  if fieldDefinition.type = "foreign-key" then
    .ok none
  else if skipMatches o fieldDefinition.type then
    .ok none
  else if pkNameMatches cd.pkIndex fieldName then
    .ok none
  else
    match getTypescriptFieldType fieldDefinition o cd.name fieldName with
    | .error e => .error e
    | .ok t =>
        .ok (some (fieldName ++ (if fieldDefinition.optional then "?" else "") ++ " : " ++ jsToString t))

end Part0

/-!  Spec-side definitions: the vocabulary the claims are stated in. -/

/-- The spec's primary-key representation per strategy: the string
representation for `string`, the numeric representation for `int`, and the
union of both for `generic`. -/
def pkRepresentationType : AutoPkType → String
  | .string => "string"
  | .int => "number"
  | .generic => "number | string"

/-- The target-collection names of a list's child-of relationships, in order. -/
def childOfTargets (rs : List Relationship) : List String :=
  rs.filterMap (fun r => match r with | .childOf d => some d.targetCollection | _ => none)

/-- The aliases of a list's child-of relationships, in order. -/
def childOfAliases (rs : List Relationship) : List String :=
  rs.filterMap (fun r => match r with | .childOf d => some d.aliasName | _ => none)

/-- The source-collection names of a list's child-of relationships, in order. -/
def childOfSources (rs : List Relationship) : List String :=
  rs.filterMap (fun r => match r with | .childOf d => some d.sourceCollection | _ => none)

/-- The reverse aliases of a list's child-of relationships, in order. -/
def childOfReverseAliases (rs : List Relationship) : List String :=
  rs.filterMap (fun r => match r with | .childOf d => some d.reverseAlias | _ => none)

/-- The collection's relationship aliases as it ranges in the generated
forward-expansion switch. -/
def forwardAliases (cd : CollectionDefinition) : List String :=
  childOfAliases cd.relationships

/-- The collection's reverse aliases as they range in the generated
reverse-expansion switch. -/
def reverseAliases (cd : CollectionDefinition) : List String :=
  childOfReverseAliases cd.reverseRelationshipsByAlias

/-- The collection names a declaration references (and records into the
shared context): forward child-of targets first, then reverse child-of
sources, in source order. -/
def referencedCollectionsOf (cd : CollectionDefinition) : List String :=
  childOfTargets cd.relationships ++ childOfSources cd.reverseRelationshipsByAlias

/-- The warnings the forward-relationship loop prints for a list, in order. -/
def forwardWarnings (collectionName : String) (rs : List Relationship) : List String :=
  rs.filterMap (fun r => match r with
    | .connects _ _ => some (forwardConnectsWarning collectionName)
    | _ => none)

/-- The warnings the reverse-relationship loop prints for a list, in order. -/
def reverseWarnings (collectionName : String) (rs : List Relationship) : List String :=
  rs.filterMap (fun r => match r with
    | .connects a b => some (reverseConnectsWarning collectionName a b)
    | _ => none)

/-- All connects warnings one collection's generic-parameter clause prints. -/
def connectsWarnings (cd : CollectionDefinition) : List String :=
  forwardWarnings cd.name cd.relationships ++
    reverseWarnings cd.name cd.reverseRelationshipsByAlias

/-- Wraps each entry in single quotes, as the switch unions print aliases. -/
def quotedList (xs : List String) : List String :=
  xs.map (fun a => "\x27" ++ a ++ "\x27")

/-- The generic-parameter clause as the spec describes it: only the
primary-key switch when the collection has no relationships at all;
otherwise the primary-key switch, a forward-expansion switch over the
child-of aliases plus a null sentinel defaulting to null, and — only when a
child-of reverse relationship exists — a reverse-expansion switch over the
reverse aliases plus a null sentinel defaulting to null. -/
def paramsStringSpec (cd : CollectionDefinition) : String :=
  if cd.relationships.isEmpty && cd.reverseRelationshipsByAlias.isEmpty then
    "<WithPk extends boolean = true>"
  else
    "<" ++
      String.intercalate ", "
        (["WithPk extends boolean = true",
          "Relationships extends " ++
            String.intercalate " | " (quotedList (forwardAliases cd) ++ ["null"]) ++ " = null"] ++
         (if (reverseAliases cd).isEmpty then []
          else ["ReverseRelationships extends " ++
            String.intercalate " | " (quotedList (reverseAliases cd) ++ ["null"]) ++ " = null"])) ++
      ">"

/-- The referenced collections contributed by one requested name: those of
its definition when the registry has it, nothing otherwise. -/
def collectionRefs (registry : List (String × CollectionDefinition)) (name : String) :
    List String :=
  match registry.lookup name with
  | some cd => referencedCollectionsOf cd
  | none => []

/-- The referenced-imports set a whole batch accumulates: every referenced
collection name, deduplicated, in order of first reference across the
requested collections. -/
def batchReferencedImports (registry : List (String × CollectionDefinition))
    (names : List String) : List String :=
  addAllToSet [] (names.flatMap (collectionRefs registry))

/-- The scalar the unexpanded branch of a forward relationship field
actually carries per strategy: the default table entry for `string` and
`int`, and — the table having no `generic` entry — the literal text
`undefined` for `generic`. -/
def unexpandedRelationshipScalar : AutoPkType → String
  | .string => "string"
  | .int => "number"
  | .generic => "undefined"

/-!  Concrete example inputs, used by witnesses. -/

/-- A collection with one forward child-of relationship (mirroring the
`bar` child-of `fooSomething` scenario of the repository's tests). -/
def exBarDefinition : CollectionDefinition :=
  { name := "bar", pkIndex := .str "id",
    fields := [("id", { type := "auto-pk" }), ("eggs", { type := "string" })],
    relationships :=
      [.childOf
        { aliasName := "fooSomething", targetCollection := "fooSomething",
          reverseAlias := "bars", sourceCollection := "bar", single := false }] }

/-- A one-collection registry for batch-level witnesses. -/
def exBarRegistry : List (String × CollectionDefinition) := [("bar", exBarDefinition)]

/-- An import-path resolver mapping a collection name to a relative path. -/
def exImportResolver : String → String := fun n => "./" ++ n

/-- Batch options requesting only `bar`, with an import resolver. -/
def exBarOptions : GenerationOptions :=
  { autoPkType := .int, collections := ["bar"], generateImport := some exImportResolver }

/-- A relationship-free collection. -/
def exPlainDefinition : CollectionDefinition :=
  { name := "a", pkIndex := .str "id", fields := [("id", { type := "auto-pk" })] }

/-- A one-collection registry holding the plain collection. -/
def exPlainRegistry : List (String × CollectionDefinition) := [("a", exPlainDefinition)]

/-- Batch options requesting only the plain collection. -/
def exPlainOptions : GenerationOptions := { autoPkType := .int, collections := ["a"] }

/-- A collection with one forward and one reverse child-of relationship. -/
def exRelDefinition : CollectionDefinition :=
  { name := "foo", pkIndex := .str "id",
    fields := [("id", { type := "auto-pk" })],
    relationships :=
      [.childOf
        { aliasName := "parent", targetCollection := "parent",
          reverseAlias := "foos", sourceCollection := "foo", single := false }],
    reverseRelationshipsByAlias :=
      [.childOf
        { aliasName := "foo", targetCollection := "foo",
          reverseAlias := "bars", sourceCollection := "bar", single := false }] }

/-- A collection carrying one (unsupported, skipped-with-warning) connects
relationship. -/
def exConnectsDefinition : CollectionDefinition :=
  { name := "test", pkIndex := .str "id",
    fields := [("id", { type := "auto-pk" })],
    relationships := [.connects "foo" "bar"] }

/-!  Helper lemmas. -/

lemma contains_iff_mem {s : List String} {x : String} : s.contains x = true ↔ x ∈ s :=
  List.elem_iff

lemma addAllToSet_append (s xs ys : List String) :
    addAllToSet s (xs ++ ys) = addAllToSet (addAllToSet s xs) ys :=
  List.foldl_append _ _ _ _

lemma addToSet_nodup {s : List String} {x : String} (h : s.Nodup) : (addToSet s x).Nodup := by
  unfold addToSet
  split
  · exact h
  · rename_i hc
    rw [List.nodup_append]
    refine ⟨h, List.nodup_singleton x, ?_⟩
    intro a ha hax
    simp only [List.mem_singleton] at hax
    subst hax
    exact hc (contains_iff_mem.mpr ha)

lemma addAllToSet_nodup (xs : List String) : ∀ {s : List String}, s.Nodup →
    (addAllToSet s xs).Nodup := by
  induction xs with
  | nil => intro s h; exact h
  | cons x xs ih => intro s h; exact ih (addToSet_nodup h)

lemma fwdParamsLoop_ok (name : String) (rs : List Relationship) :
    ∀ ctx fields warns res, fwdParamsLoop name rs ctx fields warns = .ok res →
      res = (addAllToSet ctx (childOfTargets rs),
             fields ++ quotedList (childOfAliases rs),
             warns ++ forwardWarnings name rs) := by
  induction rs with
  | nil =>
      intro ctx fields warns res h
      simp only [fwdParamsLoop, Except.ok.injEq] at h
      simp [← h, childOfTargets, childOfAliases, forwardWarnings, addAllToSet, quotedList]
  | cons r rs ih =>
      intro ctx fields warns res h
      cases r with
      | childOf d =>
          simp only [fwdParamsLoop] at h
          rw [ih _ _ _ _ h]
          simp [childOfTargets, childOfAliases, forwardWarnings, quotedList, addAllToSet,
            List.filterMap_cons, List.append_assoc]
      | connects a b =>
          simp only [fwdParamsLoop] at h
          rw [ih _ _ _ _ h]
          simp [childOfTargets, childOfAliases, forwardWarnings, quotedList, addAllToSet,
            List.filterMap_cons, List.append_assoc]
      | unsupported => simp [fwdParamsLoop] at h

lemma revParamsLoop_ok (name : String) (rs : List Relationship) :
    ∀ ctx fields warns res, revParamsLoop name rs ctx fields warns = .ok res →
      res = (addAllToSet ctx (childOfSources rs),
             fields ++ quotedList (childOfReverseAliases rs),
             warns ++ reverseWarnings name rs) := by
  induction rs with
  | nil =>
      intro ctx fields warns res h
      simp only [revParamsLoop, Except.ok.injEq] at h
      simp [← h, childOfSources, childOfReverseAliases, reverseWarnings, addAllToSet, quotedList]
  | cons r rs ih =>
      intro ctx fields warns res h
      cases r with
      | childOf d =>
          simp only [revParamsLoop] at h
          rw [ih _ _ _ _ h]
          simp [childOfSources, childOfReverseAliases, reverseWarnings, quotedList, addAllToSet,
            List.filterMap_cons, List.append_assoc]
      | connects a b =>
          simp only [revParamsLoop] at h
          rw [ih _ _ _ _ h]
          simp [childOfSources, childOfReverseAliases, reverseWarnings, quotedList, addAllToSet,
            List.filterMap_cons, List.append_assoc]
      | unsupported => simp [revParamsLoop] at h

lemma fwdParamsLoop_sup (name : String) : ∀ (rs : List Relationship),
    (∀ r ∈ rs, (isChildOfRelationship r || isConnectsRelationship r) = true) →
    ∀ ctx fields warns, fwdParamsLoop name rs ctx fields warns =
      .ok (addAllToSet ctx (childOfTargets rs),
           fields ++ quotedList (childOfAliases rs),
           warns ++ forwardWarnings name rs) := by
  intro rs
  induction rs with
  | nil =>
      intro _ ctx fields warns
      simp [fwdParamsLoop, childOfTargets, childOfAliases, forwardWarnings, addAllToSet, quotedList]
  | cons r rs ih =>
      intro hsup ctx fields warns
      have hsup' : ∀ r ∈ rs, (isChildOfRelationship r || isConnectsRelationship r) = true :=
        fun r hr => hsup r (List.mem_cons_of_mem _ hr)
      cases r with
      | childOf d =>
          simp only [fwdParamsLoop]
          rw [ih hsup' _ _ _]
          simp [childOfTargets, childOfAliases, forwardWarnings, quotedList, addAllToSet,
            List.filterMap_cons, List.append_assoc]
      | connects a b =>
          simp only [fwdParamsLoop]
          rw [ih hsup' _ _ _]
          simp [childOfTargets, childOfAliases, forwardWarnings, quotedList, addAllToSet,
            List.filterMap_cons, List.append_assoc]
      | unsupported =>
          have := hsup .unsupported (List.mem_cons_self _ _)
          simp [isChildOfRelationship, isConnectsRelationship] at this

lemma revParamsLoop_sup (name : String) : ∀ (rs : List Relationship),
    (∀ r ∈ rs, (isChildOfRelationship r || isConnectsRelationship r) = true) →
    ∀ ctx fields warns, revParamsLoop name rs ctx fields warns =
      .ok (addAllToSet ctx (childOfSources rs),
           fields ++ quotedList (childOfReverseAliases rs),
           warns ++ reverseWarnings name rs) := by
  intro rs
  induction rs with
  | nil =>
      intro _ ctx fields warns
      simp [revParamsLoop, childOfSources, childOfReverseAliases, reverseWarnings, addAllToSet,
        quotedList]
  | cons r rs ih =>
      intro hsup ctx fields warns
      have hsup' : ∀ r ∈ rs, (isChildOfRelationship r || isConnectsRelationship r) = true :=
        fun r hr => hsup r (List.mem_cons_of_mem _ hr)
      cases r with
      | childOf d =>
          simp only [revParamsLoop]
          rw [ih hsup' _ _ _]
          simp [childOfSources, childOfReverseAliases, reverseWarnings, quotedList, addAllToSet,
            List.filterMap_cons, List.append_assoc]
      | connects a b =>
          simp only [revParamsLoop]
          rw [ih hsup' _ _ _]
          simp [childOfSources, childOfReverseAliases, reverseWarnings, quotedList, addAllToSet,
            List.filterMap_cons, List.append_assoc]
      | unsupported =>
          have := hsup .unsupported (List.mem_cons_self _ _)
          simp [isChildOfRelationship, isConnectsRelationship] at this

lemma interfaceParameters_ok (cd : CollectionDefinition) (ctx : List String)
    (res : String × List String × List String)
    (h : generateTypescriptInterfaceParameters cd ctx = .ok res) :
    res = (paramsStringSpec cd, addAllToSet ctx (referencedCollectionsOf cd),
           connectsWarnings cd) := by
  unfold generateTypescriptInterfaceParameters at h
  split at h
  · rename_i hempty
    simp only [Bool.and_eq_true, List.isEmpty_iff] at hempty
    obtain ⟨h1, h2⟩ := hempty
    simp only [Except.ok.injEq] at h
    simp [← h, paramsStringSpec, h1, h2, referencedCollectionsOf, connectsWarnings,
      forwardWarnings, reverseWarnings, childOfTargets, childOfSources, addAllToSet]
  · rename_i hempty
    split at h
    · cases h
    · rename_i fwdRes heqFwd
      have hfwd := fwdParamsLoop_ok cd.name cd.relationships _ _ _ _ heqFwd
      subst hfwd
      simp only [List.nil_append] at h
      split at h
      · cases h
      · rename_i revRes heqRev
        have hrev := revParamsLoop_ok cd.name cd.reverseRelationshipsByAlias _ _ _ _ heqRev
        subst hrev
        simp only [List.nil_append, Except.ok.injEq] at h
        rw [← h]
        have hns : (cd.relationships.isEmpty && cd.reverseRelationshipsByAlias.isEmpty) = false :=
          Bool.not_eq_true _ ▸ eq_false_of_ne_true hempty
        refine Prod.ext ?_ (Prod.ext ?_ ?_)
        · simp only [paramsStringSpec, hns, Bool.false_eq_true, if_false]
          cases hrevAliases : reverseAliases cd with
          | nil =>
              have hra : childOfReverseAliases cd.reverseRelationshipsByAlias = [] := hrevAliases
              simp [hra, quotedList, forwardAliases, hrevAliases]
          | cons a as =>
              have hra : childOfReverseAliases cd.reverseRelationshipsByAlias = a :: as :=
                hrevAliases
              simp [hra, quotedList, forwardAliases, hrevAliases]
        · simp [referencedCollectionsOf, addAllToSet_append]
        · simp [connectsWarnings]

lemma interfaceParameters_sup (cd : CollectionDefinition) (ctx : List String)
    (hsup : ∀ r ∈ cd.relationships ++ cd.reverseRelationshipsByAlias,
      (isChildOfRelationship r || isConnectsRelationship r) = true) :
    generateTypescriptInterfaceParameters cd ctx =
      .ok (paramsStringSpec cd, addAllToSet ctx (referencedCollectionsOf cd),
           connectsWarnings cd) := by
  have hsupF : ∀ r ∈ cd.relationships, (isChildOfRelationship r || isConnectsRelationship r) = true :=
    fun r hr => hsup r (List.mem_append_left _ hr)
  have hsupR : ∀ r ∈ cd.reverseRelationshipsByAlias,
      (isChildOfRelationship r || isConnectsRelationship r) = true :=
    fun r hr => hsup r (List.mem_append_right _ hr)
  unfold generateTypescriptInterfaceParameters
  split
  · rename_i hempty
    simp only [Bool.and_eq_true, List.isEmpty_iff] at hempty
    obtain ⟨h1, h2⟩ := hempty
    simp [paramsStringSpec, h1, h2, referencedCollectionsOf, connectsWarnings,
      forwardWarnings, reverseWarnings, childOfTargets, childOfSources, addAllToSet]
  · rename_i hempty
    rw [fwdParamsLoop_sup cd.name cd.relationships hsupF ctx [] []]
    simp only [List.nil_append]
    rw [revParamsLoop_sup cd.name cd.reverseRelationshipsByAlias hsupR _ [] _]
    simp only [List.nil_append, Except.ok.injEq]
    have hns : (cd.relationships.isEmpty && cd.reverseRelationshipsByAlias.isEmpty) = false :=
      Bool.not_eq_true _ ▸ eq_false_of_ne_true hempty
    refine Prod.ext ?_ (Prod.ext ?_ ?_)
    · simp only [paramsStringSpec, hns, Bool.false_eq_true, if_false]
      cases hrevAliases : reverseAliases cd with
      | nil =>
          have hra : childOfReverseAliases cd.reverseRelationshipsByAlias = [] := hrevAliases
          simp [hra, quotedList, forwardAliases, hrevAliases]
      | cons a as =>
          have hra : childOfReverseAliases cd.reverseRelationshipsByAlias = a :: as := hrevAliases
          simp [hra, quotedList, forwardAliases, hrevAliases]
    · simp [referencedCollectionsOf, addAllToSet_append]
    · simp [connectsWarnings]

lemma generateTypescriptInterface_ok (cd : CollectionDefinition) (o : GenerationOptions)
    (ctx : List String) (res : String × List String × List String)
    (h : generateTypescriptInterface cd o ctx = .ok res) :
    res.2.1 = addAllToSet ctx (referencedCollectionsOf cd) ∧ res.2.2 = connectsWarnings cd := by
  unfold generateTypescriptInterface at h
  split at h
  · cases h
  · split at h
    · cases h
    · split at h
      · cases h
      · split at h
        · cases h
        · split at h
          · cases h
          · rename_i ipRes heqIp
            have hip := interfaceParameters_ok cd ctx _ heqIp
            subst hip
            simp only [Except.ok.injEq] at h
            simp [← h]

lemma genLoop_ok (o : GenerationOptions) : ∀ (names : List String) (st : GenState)
    (res : List String × GenState),
    generateTypescriptInterfacesLoop o names st = .ok res →
    res.2.collections = st.collections ∧
    res.2.referencedImports =
      addAllToSet st.referencedImports (names.flatMap (collectionRefs st.collections)) := by
  intro names
  induction names with
  | nil =>
      intro st res h
      simp only [generateTypescriptInterfacesLoop, Except.ok.injEq] at h
      simp [← h, addAllToSet]
  | cons n rest ih =>
      intro st res h
      simp only [generateTypescriptInterfacesLoop] at h
      split at h
      · cases h
      · rename_i cd heqCd
        split at h
        · cases h
        · rename_i ifaceRes heqIface
          split at h
          · cases h
          · rename_i recRes heqRec
            simp only [Except.ok.injEq] at h
            have hctx2 : ifaceRes.2.1 = addAllToSet st.referencedImports (referencedCollectionsOf cd) :=
              (generateTypescriptInterface_ok cd o st.referencedImports _ heqIface).1
            have hrec := ih _ _ heqRec
            have hrecC : recRes.2.collections = st.collections := hrec.1
            have hrecI : recRes.2.referencedImports =
                addAllToSet ifaceRes.2.1 (rest.flatMap (collectionRefs st.collections)) := hrec.2
            have hcr : collectionRefs st.collections n = referencedCollectionsOf cd := by
              simp [collectionRefs, heqCd]
            constructor
            · rw [← h]
              exact hrecC
            · rw [← h]
              show recRes.2.referencedImports = _
              rw [hrecI, hctx2]
              simp only [List.flatMap_cons, addAllToSet_append]
              rw [hcr]

lemma importLines_eq (o : GenerationOptions) (gen : String → String) :
    ∀ ctx : List String, generateTypescriptImportLines ctx o gen =
      (ctx.filter (fun n => !(o.collections.contains n))).map (importLine gen) := by
  intro ctx
  induction ctx with
  | nil => rfl
  | cons x xs ih =>
      by_cases hx : x ∈ o.collections
      · simp [generateTypescriptImportLines, List.filter_cons, hx] at ih ⊢
        exact ih
      · simp [generateTypescriptImportLines, List.filter_cons, hx] at ih ⊢
        exact ih

/-!  Claims. -/

/-- C1 (counterexample): the claim says the resolver falls back to the
default table per kind when the caller override lacks an entry.  It does
not: a caller map replaces the default table wholesale, so the kind
`string` — present in the default table, absent from the override — makes
the resolver fail with the UnresolvedType error instead of returning the
default entry `string`. -/
theorem claim_C1_counterexample :
    DEFAULT_FIELD_TYPE_MAP.lookup "string" = some "string" ∧
    ([("media", "Blob")] : List (String × String)).lookup "string" = none ∧
    getTypescriptFieldType { type := "string" }
        { autoPkType := .int, fieldTypeMap := some [("media", "Blob")] } "test" "fieldString" =
      .error (unresolvedTypeMessage "string" "test" "fieldString") :=
  ⟨rfl, rfl, rfl⟩

/-- C1 (amended): for every field whose kind is not `auto-pk`, the resolver
consults only the effective map — the caller override when supplied
(replacing the default table entirely), the default table otherwise.  It
returns that map's entry for the kind, and fails with the UnresolvedType
error exactly when the effective map has no entry for the kind (or an
empty-string entry, which JS truthiness rejects as well); the error message
names the enclosing collection and the field. -/
theorem claim_C1_amended (fd : CollectionField) (o : GenerationOptions) (coll fname : String)
    (hk : fd.type ≠ "auto-pk") :
    (match (o.fieldTypeMap.getD DEFAULT_FIELD_TYPE_MAP).lookup fd.type with
     | some t =>
        if t = "" then
          getTypescriptFieldType fd o coll fname =
            .error (unresolvedTypeMessage fd.type coll fname)
        else getTypescriptFieldType fd o coll fname = .ok (some t)
     | none =>
        getTypescriptFieldType fd o coll fname =
          .error (unresolvedTypeMessage fd.type coll fname)) ∧
    (∃ pre post, unresolvedTypeMessage fd.type coll fname =
      pre ++ (coll ++ "." ++ fname) ++ post) := by
  constructor
  · simp only [getTypescriptFieldType, if_neg hk]
    cases hl : (o.fieldTypeMap.getD DEFAULT_FIELD_TYPE_MAP).lookup fd.type with
    | none => simp [hl, jsFalsyStr]
    | some t =>
        by_cases ht : t = ""
        · simp [hl, jsFalsyStr, ht]
        · simp [hl, jsFalsyStr, ht]
  · exact ⟨"Could not translate type \x27" ++ fd.type ++ "\x27 of field \x27",
      "\x27 to TypeScript type. Please use the \x27fieldTypeMap\x27 option for custom fields",
      rfl⟩

/-- Witness for C1 (amended): with no override, kind `string` resolves to
the default entry `string`. -/
theorem claim_C1_amended_witness :
    ("string" : String) ≠ "auto-pk" ∧
    getTypescriptFieldType { type := "string" } { autoPkType := .int } "test" "fieldString" =
      .ok (some "string") :=
  ⟨by decide,
   (claim_C1_amended { type := "string" } { autoPkType := .int } "test" "fieldString"
     (by decide)).1⟩

/-- C4: the emitted primary-key segment's type is the string representation
for strategy `string`, the numeric representation for strategy `int`, and
the union of both for strategy `generic`. -/
theorem claim_C4 (cd : CollectionDefinition) (o : GenerationOptions) (pk : String)
    (h : cd.pkIndex = .str pk) :
    generateTypescriptOptionalPk cd o =
      .ok ("( WithPk extends true ? \x7b " ++ pk ++ " : " ++
        pkRepresentationType o.autoPkType ++ " \x7d : \x7b\x7d )") := by
  unfold generateTypescriptOptionalPk
  rw [h]
  cases hap : o.autoPkType <;> rfl

/-- Witness for C4: the `generic` strategy yields the union type. -/
theorem claim_C4_witness :
    generateTypescriptOptionalPk { name := "test", pkIndex := .str "id" }
        { autoPkType := .generic } =
      .ok "( WithPk extends true ? \x7b id : number | string \x7d : \x7b\x7d )" :=
  claim_C4 { name := "test", pkIndex := .str "id" } { autoPkType := .generic } "id" rfl

/-- C6 (counterexample): the claim says the unselected branch of a forward
child-of relationship field carries the primary-key representation type for
the chosen strategy; for strategy `generic` that representation is
`number | string`, but the emitted branch is the literal text `undefined`
(the default table has no `generic` entry and the interpolation coerces
JS `undefined`). -/
theorem claim_C6_counterexample :
    generateTypescriptRelationship
        (.childOf
          { aliasName := "foo", targetCollection := "foo", reverseAlias := "bars",
            sourceCollection := "bar", single := false })
        { name := "bar", pkIndex := .str "id" } { autoPkType := .generic } =
      .ok (some "foo : \x27foo\x27 extends Relationships ? Foo : undefined") ∧
    pkRepresentationType .generic = "number | string" ∧
    (some "foo : \x27foo\x27 extends Relationships ? Foo : undefined" ≠
      some ("foo : \x27foo\x27 extends Relationships ? Foo : " ++
        pkRepresentationType AutoPkType.generic)) :=
  ⟨rfl, rfl, by decide⟩

/-- C6 (amended): for every forward child-of relationship the emitted field
is named after the alias; its type is the target collection's generated
type name in the branch where the alias is selected by the expansion
switch, and in the unselected branch the default type-table entry for the
strategy (`string` for `string`, `number` for `int`) — for `generic`, where
the table has no entry, the literal text `undefined`. -/
theorem claim_C6_amended (d : RelationshipData) (cd : CollectionDefinition)
    (o : GenerationOptions) :
    generateTypescriptRelationship (.childOf d) cd o =
      .ok (some (d.aliasName ++ " : " ++ ("\x27" ++ d.aliasName ++ "\x27 extends Relationships") ++
        " ? " ++ upperFirst d.targetCollection ++ " : " ++
        unexpandedRelationshipScalar o.autoPkType)) := by
  cases hap : o.autoPkType <;>
    simp [generateTypescriptRelationship, hap, unexpandedRelationshipScalar,
      AutoPkType.key, DEFAULT_FIELD_TYPE_MAP, jsToString, List.lookup]

/-- C7: for every reverse child-of relationship, the emitted conditional
sub-block adds a field named after the reverse alias whose type is the
source collection's generated type name, suffixed nullable-single when the
`single` flag is set and list-shaped otherwise. -/
theorem claim_C7 (d : RelationshipData) (cd : CollectionDefinition) (o : GenerationOptions) :
    generateTypescriptReverseRelationship (.childOf d) cd o =
      .ok (some ("( \x27" ++ d.reverseAlias ++ "\x27 extends ReverseRelationships ? \x7b " ++
        d.reverseAlias ++ " : " ++ upperFirst d.sourceCollection ++
        (if d.single then " | null" else "[]") ++ " \x7d : \x7b\x7d )")) := rfl

/-- C10: the resolver's `auto-pk` branch returns the effective map's entry
for the strategy key with no missing-entry check, so it never raises the
unresolved-type error; with the default map and strategy `generic` (no such
entry) the emitted field line carries the literal text `undefined`, and the
scalar branch of an unexpanded forward child-of relationship — looked up in
the default map under `generic` — likewise emits the literal `undefined`. -/
theorem claim_C10 (fd : CollectionField) (o : GenerationOptions) (coll fname : String)
    (cd : CollectionDefinition) (d : RelationshipData) :
    (fd.type = "auto-pk" →
      getTypescriptFieldType fd o coll fname =
        .ok ((o.fieldTypeMap.getD DEFAULT_FIELD_TYPE_MAP).lookup o.autoPkType.key)) ∧
    (fd.type = "auto-pk" → o.fieldTypeMap = none → o.autoPkType = .generic →
      pkNameMatches cd.pkIndex fname = false →
      generateTypescriptField fd cd o fname =
        .ok (some (fname ++ (if fd.optional then "?" else "") ++ " : " ++ "undefined"))) ∧
    (o.autoPkType = .generic →
      generateTypescriptRelationship (.childOf d) cd o =
        .ok (some (d.aliasName ++ " : " ++ ("\x27" ++ d.aliasName ++ "\x27 extends Relationships") ++
          " ? " ++ upperFirst d.targetCollection ++ " : " ++ "undefined"))) := by
  refine ⟨?_, ?_, ?_⟩
  · intro h1
    simp [getTypescriptFieldType, h1]
  · intro h1 h2 h3 h4
    simp [generateTypescriptField, h1, h4, getTypescriptFieldType, h2, h3,
      AutoPkType.key, DEFAULT_FIELD_TYPE_MAP, jsToString, List.lookup]
  · intro h3
    simp [generateTypescriptRelationship, h3, AutoPkType.key, DEFAULT_FIELD_TYPE_MAP,
      jsToString, List.lookup]

/-- Witness for C10: an `auto-pk` field that is not the primary-key field,
generated under the default map with strategy `generic`, is emitted with
the literal type text `undefined`; so is the unexpanded relationship
scalar. -/
theorem claim_C10_witness :
    getTypescriptFieldType { type := "auto-pk" } { autoPkType := .generic } "c" "uid" =
      .ok none ∧
    generateTypescriptField { type := "auto-pk" } { name := "c", pkIndex := .str "id" }
        { autoPkType := .generic } "uid" = .ok (some "uid : undefined") ∧
    generateTypescriptRelationship
        (.childOf
          { aliasName := "foo", targetCollection := "foo", reverseAlias := "bars",
            sourceCollection := "bar", single := false })
        { name := "c", pkIndex := .str "id" } { autoPkType := .generic } =
      .ok (some "foo : \x27foo\x27 extends Relationships ? Foo : undefined") := by
  have h := claim_C10 { type := "auto-pk" } { autoPkType := .generic } "c" "uid"
    { name := "c", pkIndex := .str "id" }
    { aliasName := "foo", targetCollection := "foo", reverseAlias := "bars",
      sourceCollection := "bar", single := false }
  exact ⟨h.1 rfl, h.2.1 rfl rfl rfl rfl, h.2.2 rfl⟩

/-- C3: the field emitter (the `skipTypes`-carrying variant of
`generateTypescriptField`) omits a field exactly when its kind is
`foreign-key`, or its name equals the collection's primary-key field name,
or its kind is in the caller's `skipTypes` exclusion list; otherwise — when
the resolver yields a type — it emits one line `name?(opt) : type`, the `?`
appended exactly when the optional flag is set. -/
theorem claim_C3 (fd : CollectionField) (cd : CollectionDefinition)
    (o : Part0.GenerateTypescriptInterfacesOptions) (fname : String) :
    (Part0.generateTypescriptField fd cd o fname = .ok none ↔
      (fd.type = "foreign-key" ∨ pkNameMatches cd.pkIndex fname = true ∨
        Part0.skipMatches o fd.type = true)) ∧
    (∀ t, Part0.getTypescriptFieldType fd o cd.name fname = .ok t →
      fd.type ≠ "foreign-key" → Part0.skipMatches o fd.type = false →
      pkNameMatches cd.pkIndex fname = false →
      Part0.generateTypescriptField fd cd o fname =
        .ok (some (fname ++ (if fd.optional then "?" else "") ++ " : " ++ jsToString t))) := by
  constructor
  · by_cases h1 : fd.type = "foreign-key"
    · simp [Part0.generateTypescriptField, h1]
    · by_cases h2 : Part0.skipMatches o fd.type = true
      · simp [Part0.generateTypescriptField, h1, h2]
      · by_cases h3 : pkNameMatches cd.pkIndex fname = true
        · simp [Part0.generateTypescriptField, h1, h2, h3]
        · cases hres : Part0.getTypescriptFieldType fd o cd.name fname with
          | error e => simp [Part0.generateTypescriptField, h1, h2, h3, hres]
          | ok t => simp [Part0.generateTypescriptField, h1, h2, h3, hres]
  · intro t ht h1 h2 h3
    simp [Part0.generateTypescriptField, h1, h2, h3, ht]

/-- Witness for C3: an optional `string` field is emitted with the `?`
suffix, and a `media` field is omitted when `media` is in `skipTypes`. -/
theorem claim_C3_witness :
    Part0.generateTypescriptField { type := "string", optional := true }
        { name := "test", pkIndex := .str "id" }
        { autoPkType := .int, skipTypes := some ["media"] } "fieldString" =
      .ok (some "fieldString? : string") ∧
    Part0.generateTypescriptField { type := "media" }
        { name := "test", pkIndex := .str "id" }
        { autoPkType := .int, skipTypes := some ["media"] } "fieldText" = .ok none := by
  constructor
  · exact (claim_C3 { type := "string", optional := true }
      { name := "test", pkIndex := .str "id" }
      { autoPkType := .int, skipTypes := some ["media"] } "fieldString").2
      (some "string") rfl (by decide) rfl rfl
  · exact (claim_C3 { type := "media" }
      { name := "test", pkIndex := .str "id" }
      { autoPkType := .int, skipTypes := some ["media"] } "fieldText").1.mpr
      (Or.inr (Or.inr rfl))

/-- C5: for a collection with no forward and no reverse relationships,
exactly the primary-key switch is declared; with at least one relationship
the clause also declares the forward-expansion switch over the child-of
aliases plus the null sentinel (default null), and — only when a child-of
reverse relationship exists — the reverse-expansion switch over the reverse
aliases plus the null sentinel (default null); `paramsStringSpec` spells
this out and the generated clause equals it. -/
theorem claim_C5 (cd : CollectionDefinition) (ctx : List String)
    (hsup : ∀ r ∈ cd.relationships ++ cd.reverseRelationshipsByAlias,
      (isChildOfRelationship r || isConnectsRelationship r) = true) :
    generateTypescriptInterfaceParameters cd ctx =
      .ok (paramsStringSpec cd, addAllToSet ctx (referencedCollectionsOf cd),
           connectsWarnings cd) ∧
    (cd.relationships = [] → cd.reverseRelationshipsByAlias = [] →
      paramsStringSpec cd = "<WithPk extends boolean = true>") ∧
    ((cd.relationships ≠ [] ∨ cd.reverseRelationshipsByAlias ≠ []) →
      paramsStringSpec cd =
        "<" ++ String.intercalate ", "
          (["WithPk extends boolean = true",
            "Relationships extends " ++
              String.intercalate " | " (quotedList (forwardAliases cd) ++ ["null"]) ++
              " = null"] ++
           (if (reverseAliases cd).isEmpty then []
            else ["ReverseRelationships extends " ++
              String.intercalate " | " (quotedList (reverseAliases cd) ++ ["null"]) ++
              " = null"])) ++ ">") := by
  refine ⟨interfaceParameters_sup cd ctx hsup, ?_, ?_⟩
  · intro h1 h2
    simp [paramsStringSpec, h1, h2]
  · intro h
    have hne : (cd.relationships.isEmpty && cd.reverseRelationshipsByAlias.isEmpty) = false := by
      rcases h with h | h <;> simp [List.isEmpty_iff, h, Bool.and_eq_false_iff]
    simp [paramsStringSpec, hne]

/-- Witness for C5: a collection with one forward alias `parent` and one
reverse alias `bars` declares all three switches; the context records the
target and source collections in reference order. -/
theorem claim_C5_witness :
    generateTypescriptInterfaceParameters exRelDefinition [] =
      .ok ("<WithPk extends boolean = true, Relationships extends \x27parent\x27 | null = null, ReverseRelationships extends \x27bars\x27 | null = null>",
           ["parent", "bar"], []) :=
  (claim_C5 exRelDefinition [] (by decide)).1

/-- C8: connects relationships never fail generation and never emit a field
(the emitters return the omission signal; the parameter clause records a
warning instead), while any relationship shape outside child-of and
connects fails generation with the unsupported-relationship error naming
the collection. -/
theorem claim_C8 (cd : CollectionDefinition) (o : GenerationOptions) (a b : String)
    (ctx : List String) :
    generateTypescriptRelationship (.connects a b) cd o = .ok none ∧
    generateTypescriptReverseRelationship (.connects a b) cd o = .ok none ∧
    generateTypescriptRelationship .unsupported cd o =
      .error ("Unsupported relationship type detected in collection " ++ cd.name) ∧
    generateTypescriptReverseRelationship .unsupported cd o =
      .error ("Unsupported reverse relationship type detected in collection " ++ cd.name) ∧
    ((∀ r ∈ cd.relationships ++ cd.reverseRelationshipsByAlias,
        (isChildOfRelationship r || isConnectsRelationship r) = true) →
      generateTypescriptInterfaceParameters cd ctx =
        .ok (paramsStringSpec cd, addAllToSet ctx (referencedCollectionsOf cd),
             connectsWarnings cd)) :=
  ⟨rfl, rfl, rfl, rfl, fun hsup => interfaceParameters_sup cd ctx hsup⟩

/-- Witness for C8: a collection whose only relationship is a connects
relationship generates its parameter clause successfully, with one warning
recorded and no alias in the forward switch. -/
theorem claim_C8_witness :
    generateTypescriptInterfaceParameters exConnectsDefinition [] =
      .ok ("<WithPk extends boolean = true, Relationships extends null = null>",
           [], [forwardConnectsWarning "test"]) :=
  (claim_C8 exConnectsDefinition { autoPkType := .int } "foo" "bar" []).2.2.2.2 (by decide)

/-- C9: a successful batch run leaves the registry's collection definitions
untouched: the final mutable store's collections component equals the input
registry. -/
theorem claim_C9 (registry : List (String × CollectionDefinition)) (o : GenerationOptions)
    (out : String) (st : GenState)
    (h : generateTypescriptInterfaces registry o = .ok (out, st)) :
    st.collections = registry := by
  unfold generateTypescriptInterfaces at h
  split at h
  · cases h
  · rename_i loopRes heqLoop
    have hc := (genLoop_ok o o.collections _ _ heqLoop).1
    simp only [Except.ok.injEq, Prod.mk.injEq] at h
    obtain ⟨-, hst⟩ := h
    rw [← hst]
    exact hc

/-- Witness for C9: a concrete one-collection run returns the registry
unchanged in the final store. -/
theorem claim_C9_witness :
    ({ collections := exPlainRegistry, referencedImports := [] } : GenState).collections =
      exPlainRegistry :=
  claim_C9 exPlainRegistry exPlainOptions _ _ rfl

/-- C2: for every successful batch run, the tracked referenced-imports set
equals the deduplicated first-reference-ordered referenced collection
names; with a resolver supplied, the emitted import lines are exactly one
line per referenced name absent from the requested list, in that insertion
order; no lines are produced when every referenced name is requested, and
no import block exists when no resolver is supplied; the output prepends
the (non-empty) import block to the declarations. -/
theorem claim_C2 (registry : List (String × CollectionDefinition)) (o : GenerationOptions)
    (out : String) (st : GenState)
    (h : generateTypescriptInterfaces registry o = .ok (out, st)) :
    st.referencedImports = batchReferencedImports registry o.collections ∧
    (batchReferencedImports registry o.collections).Nodup ∧
    (o.generateImport = none → generateTypescriptImports st.referencedImports o = none) ∧
    (∀ gen, o.generateImport = some gen →
      generateTypescriptImportLines st.referencedImports o gen =
        ((batchReferencedImports registry o.collections).filter
          (fun n => !(o.collections.contains n))).map (importLine gen) ∧
      ((∀ n ∈ batchReferencedImports registry o.collections, n ∈ o.collections) →
        generateTypescriptImportLines st.referencedImports o gen = [])) ∧
    (∃ texts, generateTypescriptInterfacesLoop o o.collections
        { collections := registry, referencedImports := [] } = .ok (texts, st) ∧
      out = String.intercalate "\n\n"
        (jsOptionalBlock (generateTypescriptImports st.referencedImports o) ++
         [String.intercalate "\n\n" texts ++ "\n"])) := by
  unfold generateTypescriptInterfaces at h
  split at h
  · cases h
  · rename_i loopRes heqLoop
    simp only [Except.ok.injEq, Prod.mk.injEq] at h
    obtain ⟨hout, hst⟩ := h
    have hloop := genLoop_ok o o.collections _ _ heqLoop
    have hri : st.referencedImports = batchReferencedImports registry o.collections := by
      rw [← hst]
      exact hloop.2
    refine ⟨hri, ?_, ?_, ?_, ?_⟩
    · exact addAllToSet_nodup _ List.nodup_nil
    · intro hgen
      simp [generateTypescriptImports, hgen]
    · intro gen hgen
      constructor
      · rw [hri]
        exact importLines_eq o gen _
      · intro hall
        rw [hri, importLines_eq o gen _]
        have hfil : (batchReferencedImports registry o.collections).filter
            (fun n => !(o.collections.contains n)) = [] := by
          rw [List.filter_eq_nil_iff]
          intro a ha
          simpa using hall a ha
        rw [hfil]
        rfl
    · refine ⟨loopRes.1, ?_, ?_⟩
      · rw [← hst]
        exact heqLoop
      · rw [← hout, ← hst]

/-- Witness for C2: requesting only `bar`, which references `fooSomething`,
tracks exactly that name and emits exactly its import line. -/
theorem claim_C2_witness :
    batchReferencedImports exBarRegistry ["bar"] = ["fooSomething"] ∧
    generateTypescriptImportLines ["fooSomething"] exBarOptions exImportResolver =
      ["import \x7b FooSomething \x7d from \x27./fooSomething\x27 "] := by
  have h := claim_C2 exBarRegistry exBarOptions _ _ rfl
  exact ⟨h.1.symm, (h.2.2.2.1 exImportResolver rfl).1⟩

end StorexTs
